import Mathlib

/-!
Shallow embedding of the gameplay core of the `shmup_game` repository
(`src/gameplay/`): damage resolution, bullet damage scaling, score/power
counters, the attack-pattern state machine, the collision pipeline, and
the level-advance check.  Rust `f32` quantities that are only compared,
copied, added, subtracted, multiplied and divided are embedded as exact
rationals (`ℚ`); `u16`/`u64` counters as `ℕ`; `std::time::Duration` as a
nonnegative integer count of nanoseconds (`ℕ`).  Entity handles are `ℕ`.
-/

namespace Shmup

/-- `ColliderType` from `src/gameplay/collisions.rs`. -/
inductive ColliderType
  | Player
  | PlayerBullet
  | Enemy
  | EnemyBullet
  | Wall
  | Collectable
  | Graze
  | None
deriving DecidableEq, Repr

/-- `Health` from `src/gameplay/shared.rs`: `{total: f32, current: f32}`. -/
structure Health where
  total : ℚ
  current : ℚ
deriving DecidableEq, Repr

/-- `EnemiesKilled` from `src/gameplay/player.rs`. -/
structure EnemiesKilled where
  total : ℕ
  currentLevel : ℕ
deriving DecidableEq, Repr

/-- `EnemiesKilled::increment`: bumps both tallies. -/
def EnemiesKilled.increment (k : EnemiesKilled) : EnemiesKilled :=
  { total := k.total + 1, currentLevel := k.currentLevel + 1 }

/-- `EnemiesKilled::reset_current`. -/
def EnemiesKilled.resetCurrent (k : EnemiesKilled) : EnemiesKilled :=
  { k with currentLevel := 0 }

/-- `TakeDamageEvent` from `src/gameplay/event.rs`. -/
structure TakeDamageEvent where
  entity : ℕ
  entityType : Option ColliderType
  damage : ℚ
deriving DecidableEq, Repr

/-- `DespawnEvent` from `src/gameplay/event.rs`:
`{entity, recursive, drop_score, drop_power}`. -/
structure DespawnEvent where
  entity : ℕ
  recursive : Bool
  dropScore : ℕ
  dropPower : ℕ
deriving DecidableEq, Repr

/-- `DespawnEvent::new(entity, recursive)`. -/
def DespawnEvent.new (entity : ℕ) (recursive : Bool) : DespawnEvent :=
  { entity := entity, recursive := recursive, dropScore := 0, dropPower := 0 }

/-- `DespawnEvent::with_score`. -/
def DespawnEvent.withScore (ev : DespawnEvent) (collectibles : ℕ) : DespawnEvent :=
  { ev with dropScore := collectibles }

/-- `DespawnEvent::with_power`. -/
def DespawnEvent.withPower (ev : DespawnEvent) (collectibles : ℕ) : DespawnEvent :=
  { ev with dropPower := collectibles }

/-- What `despawn_entity` (src/gameplay/event.rs) does with one event:
`despawn_recursive` when the flag is set, plain `despawn` otherwise. -/
inductive DespawnAction
  | recursiveDespawn (entity : ℕ)
  | plainDespawn (entity : ℕ)
deriving DecidableEq, Repr

/-- `despawn_entity` from `src/gameplay/event.rs` for a single event:
a missing (already despawned) target is silently skipped. -/
def despawnEntity (live : List ℕ) (ev : DespawnEvent) : Option DespawnAction :=
  if ev.entity ∈ live then
    some (if ev.recursive then DespawnAction.recursiveDespawn ev.entity
          else DespawnAction.plainDespawn ev.entity)
  else Option.none

/-- The observable result of `take_damage` (src/gameplay/event.rs) processing
one `TakeDamageEvent` whose target exists: the target's new health, the
despawn events sent (in send order), whether a `GameOverEvent` was sent, and
the player's kill counter afterwards. -/
structure DamageOutcome where
  health : Health
  despawns : List DespawnEvent
  gameOver : Bool
  kills : EnemiesKilled
deriving DecidableEq, Repr

/-- `take_damage` from `src/gameplay/event.rs` (lines 28-63), for one event.
`healthBar` is the target's optional `Link` to its UI entity. -/
def takeDamage (ev : TakeDamageEvent) (hp : Health) (healthBar : Option ℕ)
    (k : EnemiesKilled) : DamageOutcome :=
  if hp.current > ev.damage then
    { health := { total := hp.total, current := hp.current - ev.damage }
      despawns := []
      gameOver := false
      kills := k }
  else
    { health := hp
      despawns :=
        (match healthBar with
         | some bar => [DespawnEvent.new bar true]
         | Option.none => []) ++
        [((DespawnEvent.new ev.entity false).withScore 5).withPower 3]
      gameOver := if ev.entityType = some ColliderType.Player then true else false
      kills := if ev.entityType = some ColliderType.Enemy then k.increment else k }

/-- `Bullet` from `src/gameplay/bullet.rs`. -/
structure Bullet where
  damage : ℚ
  maxDamage : ℚ
deriving DecidableEq, Repr

/-- `Bullet::new`: caps `damage` at `max_damage` (with a warning). -/
def Bullet.new (damage maxDamage : ℚ) : Bullet :=
  if damage > maxDamage then
    { damage := maxDamage, maxDamage := maxDamage }
  else
    { damage := damage, maxDamage := maxDamage }

/-- `Bullet::set_damage`: caps at `max_damage`. -/
def Bullet.setDamage (b : Bullet) (damage : ℚ) : Bullet :=
  if damage > b.maxDamage then
    { b with damage := b.maxDamage }
  else
    { b with damage := damage }

/-- `Bullet::set_max`: caps `damage` down when the new maximum is below it. -/
def Bullet.setMax (b : Bullet) (maxDamage : ℚ) : Bullet :=
  if maxDamage < b.damage then
    { damage := maxDamage, maxDamage := maxDamage }
  else
    { b with maxDamage := maxDamage }

/-- `Bullet::set`: `set_max` then `set_damage`. -/
def Bullet.set (b : Bullet) (damage maxDamage : ℚ) : Bullet :=
  (b.setMax maxDamage).setDamage damage

/-- A call to one of the three `Bullet` mutators. -/
inductive BulletOp
  | opSetDamage (damage : ℚ)
  | opSetMax (maxDamage : ℚ)
  | opSet (damage maxDamage : ℚ)
deriving DecidableEq, Repr

/-- Apply one mutator call. -/
def Bullet.applyOp (b : Bullet) : BulletOp → Bullet
  | BulletOp.opSetDamage d => b.setDamage d
  | BulletOp.opSetMax m => b.setMax m
  | BulletOp.opSet d m => b.set d m

/-- Apply a finite sequence of mutator calls, first to last. -/
def Bullet.applyOps (b : Bullet) (ops : List BulletOp) : Bullet :=
  ops.foldl Bullet.applyOp b

/-- `Power` from `src/gameplay/player.rs`: `{current: u16, max: u16}`. -/
structure Power where
  current : ℕ
  max : ℕ
deriving DecidableEq, Repr

/-- `Score` from `src/gameplay/player.rs`:
`{score: u64, pre_multiplier_score: u64, multiplier: f32}`. -/
structure Score where
  score : ℕ
  preMultiplierScore : ℕ
  multiplier : ℚ
deriving DecidableEq, Repr

/-- `Score::default()`: zero score, multiplier 1.5. -/
def Score.default : Score :=
  { score := 0, preMultiplierScore := 0, multiplier := 3 / 2 }

/-- `Score::add` (the `Counter` impl): accumulate into the pre-multiplier
total, then recompute `score = (pre_multiplier_score as f32 * multiplier) as
u64` — truncation toward zero, saturating at 0, i.e. `⌊·⌋.toNat` for the
values reachable here. -/
def Score.add (s : Score) (x : ℕ) : Score :=
  let pre := s.preMultiplierScore + x
  { score := (Int.floor ((pre : ℚ) * s.multiplier)).toNat
    preMultiplierScore := pre
    multiplier := s.multiplier }

/-- `Score::increase_multiplier_by`. -/
def Score.increaseMultiplierBy (s : Score) (v : ℚ) : Score :=
  { s with multiplier := s.multiplier + v }

/-- `check_won` from `src/gameplay/levels/mod.rs` (lines 89-98):
true when no `Boss` entity exists and some player `EnemiesKilled` counter
has a current-level tally of at least 15. -/
def checkWon (bossCount : ℕ) (killed : List EnemiesKilled) : Bool :=
  if bossCount = 0 then
    killed.any (fun k => decide (15 ≤ k.currentLevel))
  else false

/-- `CollisionData` from `src/gameplay/collisions.rs`: one entity's record of
a collision with another entity.  The `bevy_rapier` `CollisionEventFlags`
bitfield is carried opaquely as a `ℕ`. -/
structure CollisionData where
  otherType : ColliderType
  otherEntity : ℕ
  flags : ℕ
  started : Bool
deriving DecidableEq, Repr

/-- The events `handle_bullet_col` (src/gameplay/collisions.rs, lines
154-213) emits while processing one collision record of one bullet. -/
structure BulletColOut where
  damageEvents : List TakeDamageEvent
  despawnEvents : List DespawnEvent
deriving DecidableEq, Repr

/-- The `match collision.other_type` arm of `handle_bullet_col`: `dmg` is the
already-computed `damage_dealt`.  Hitting the Player or an Enemy on a
begin-event emits a damage event plus a despawn of the bullet; leaving a Wall
(end-event) despawns the bullet; everything else is ignored. -/
def bulletColEmit (entity : ℕ) (c : CollisionData) (dmg : ℚ) : BulletColOut :=
  match c.otherType with
  | ColliderType.Player =>
    if c.started then
      { damageEvents := [{ entity := c.otherEntity, entityType := some c.otherType, damage := dmg }]
        despawnEvents := [DespawnEvent.new entity true] }
    else { damageEvents := [], despawnEvents := [] }
  | ColliderType.Enemy =>
    if c.started then
      { damageEvents := [{ entity := c.otherEntity, entityType := some c.otherType, damage := dmg }]
        despawnEvents := [DespawnEvent.new entity true] }
    else { damageEvents := [], despawnEvents := [] }
  | ColliderType.Wall =>
    if c.started then { damageEvents := [], despawnEvents := [] }
    else { damageEvents := [], despawnEvents := [DespawnEvent.new entity true] }
  | _ => { damageEvents := [], despawnEvents := [] }

/-- One iteration of the inner loop of `handle_bullet_col`: for a player-fired
bullet on a begin-event the damage is scaled through the player's `Power`
(`lower + input * (upper - lower) / upper_power`); when the single player
cannot be found that collision is skipped (`continue`); otherwise the bullet's
base damage is used. -/
def handleBulletColOne (entity : ℕ) (bulletType : ColliderType) (b : Bullet)
    (playerPower : Option Power) (c : CollisionData) : BulletColOut :=
  if bulletType = ColliderType.PlayerBullet ∧ c.started = true then
    match playerPower with
    | some power =>
      bulletColEmit entity c
        (b.damage + (power.current : ℚ) * (b.maxDamage - b.damage) / (power.max : ℚ))
    | Option.none => { damageEvents := [], despawnEvents := [] }
  else
    bulletColEmit entity c b.damage

/-- The spec's wording of the bullet-damage rule: `damage = low +
power_fraction * (high - low)` with `power_fraction = current_power /
max_power` for a player bullet on a begin-event, the bullet's current damage
otherwise. -/
def specBulletDamage (bulletType : ColliderType) (started : Bool) (b : Bullet)
    (power : Power) : ℚ :=
  if bulletType = ColliderType.PlayerBullet ∧ started = true then
    b.damage + ((power.current : ℚ) / (power.max : ℚ)) * (b.maxDamage - b.damage)
  else b.damage

/-- A raw overlap event from the physics collaborator
(`CollisionEvent::Started`/`Stopped` in `handle_collisions`). -/
structure RawCollisionEvent where
  entity1 : ℕ
  entity2 : ℕ
  flags : ℕ
  started : Bool
deriving DecidableEq, Repr

/-- The `Collisions` resource: a map from entity handle to its list of
collision records, embedded as an association list with hash-map semantics
(at most one entry per key in every table built by the pipeline). -/
abbrev CollisionTable : Type := List (ℕ × List CollisionData)

/-- Lookup of an entity's record list; a missing key reads as no records. -/
def tableGetD (t : CollisionTable) (e : ℕ) : List CollisionData :=
  match t with
  | [] => []
  | (k, v) :: rest => if k = e then v else tableGetD rest e

/-- Whether the table has an entry for `e`. -/
def tableHasKey (t : CollisionTable) (e : ℕ) : Bool :=
  match t with
  | [] => false
  | (k, _) :: rest => if k = e then true else tableHasKey rest e

/-- The table update of `handle_collisions`: push the record onto the
existing entry for `e` if there is one, otherwise insert a fresh entry. -/
def tablePush (e : ℕ) (d : CollisionData) : CollisionTable → CollisionTable
  | [] => [(e, [d])]
  | (k, v) :: rest =>
    if k = e then (k, v ++ [d]) :: rest else (k, v) :: tablePush e d rest

/-- `Collisions::remove` (via `HashMap::remove`) for one key. -/
def tableRemove (t : CollisionTable) (e : ℕ) : CollisionTable :=
  t.filter (fun kv => decide (kv.1 ≠ e))

/-- `commands.entity(e).insert(CollisionMarker)`: marking is idempotent. -/
def markEntity (ms : List ℕ) (e : ℕ) : List ℕ :=
  if e ∈ ms then ms else ms ++ [e]

/-- The per-tick collision bookkeeping state: the `Collisions` table plus the
set of entities currently carrying `CollisionMarker`. -/
structure CollisionWorld where
  table : CollisionTable
  markers : List ℕ
deriving DecidableEq

/-- One iteration of `handle_collisions` (src/gameplay/collisions.rs, lines
97-150): if either entity has no `ColliderType` the event is skipped
entirely; otherwise each entity gets a record of the other appended and both
are marked. -/
def handleCollisionEvent (types : List (ℕ × ColliderType)) (w : CollisionWorld)
    (ev : RawCollisionEvent) : CollisionWorld :=
  match types.lookup ev.entity1, types.lookup ev.entity2 with
  | some t1, some t2 =>
    { table :=
        tablePush ev.entity2
          { otherType := t1, otherEntity := ev.entity1, flags := ev.flags, started := ev.started }
          (tablePush ev.entity1
            { otherType := t2, otherEntity := ev.entity2, flags := ev.flags, started := ev.started }
            w.table)
      markers := markEntity (markEntity w.markers ev.entity1) ev.entity2 }
  | _, _ => w

/-- `handle_collisions` over the tick's whole raw-event stream. -/
def handleCollisions (types : List (ℕ × ColliderType)) (w : CollisionWorld)
    (evs : List RawCollisionEvent) : CollisionWorld :=
  evs.foldl (handleCollisionEvent types) w

/-- `cleanup_collisions` (src/gameplay/collisions.rs, lines 329-340): for
every entity carrying `CollisionMarker`, remove its table entry and its
marker. -/
def cleanupCollisions (w : CollisionWorld) : CollisionWorld :=
  { table := w.markers.foldl tableRemove w.table
    markers := w.markers.foldl (fun ms e => ms.filter (fun x => decide (x ≠ e))) w.markers }

/-- A `bevy::time::Timer` in `TimerMode::Once`, as used by every cooldown and
switch timer in this game (all are constructed with `TimerMode::Once`):
`tick` accumulates elapsed time, saturating at the duration; `finished` once
the duration has elapsed; `reset` starts over.  Durations are integral
nanosecond counts. -/
structure GTimer where
  duration : ℕ
  elapsed : ℕ
deriving DecidableEq, Repr

/-- `Timer::tick` (Once mode): elapsed time saturates at the duration. -/
def GTimer.tick (t : GTimer) (dt : ℕ) : GTimer :=
  { t with elapsed := min (t.elapsed + dt) t.duration }

/-- `Timer::finished` (Once mode). -/
def GTimer.finished (t : GTimer) : Bool :=
  decide (t.duration ≤ t.elapsed)

/-- `Timer::reset`. -/
def GTimer.reset (t : GTimer) : GTimer :=
  { t with elapsed := 0 }

/-- `AttackPattern` from `src/gameplay/bullet.rs`, restricted to the fields
the attack cadence reads: the bullet group's `number`, the outer cooldown
`cd`, the optional inner cooldown `icd`, and the `current_bullet` cursor. -/
structure AttackPattern where
  number : ℕ
  cd : GTimer
  icd : Option GTimer
  currentBullet : ℕ
deriving DecidableEq, Repr

/-- `Attacks` from `src/gameplay/enemy.rs`: the pattern list, the index of
the current pattern, and the shared pattern-switch timer. -/
structure Attacks where
  attacks : List AttackPattern
  currentAttack : ℕ
  switchTimer : GTimer
deriving DecidableEq, Repr

/-- One per-entity iteration of `enemy_attack` (src/gameplay/enemy.rs, lines
108-230).  `stateChanged` is `state.is_changed()`; `dt` the tick's delta.
Returns the updated `Attacks` plus how many bullets were spawned this tick
(`spawn_single` counts 1, `spawn_all` counts the group's `number`), or
`none` when `attacks[current_attack]` is out of bounds (a Rust panic). -/
def enemyAttackStep (stateChanged : Bool) (dt : ℕ) (a : Attacks) :
    Option (Attacks × ℕ) :=
  match a.attacks.get? a.currentAttack with
  | Option.none => Option.none
  | some atk0 =>
    let n := a.attacks.length
    let i0 := a.currentAttack
    let reset0 :=
      if stateChanged then
        ({ atk0 with cd := atk0.cd.reset, icd := atk0.icd.map GTimer.reset,
                     currentBullet := 0 },
         a.switchTimer.reset, (0 : ℕ))
      else (atk0, a.switchTimer, a.currentAttack)
    let atk1 := reset0.1
    let st1 := reset0.2.1
    let cur1 := reset0.2.2
    let atk2 := { atk1 with cd := atk1.cd.tick dt }
    if atk2.number ≤ atk2.currentBullet then
      let atk3 :=
        if atk2.cd.finished then { atk2 with currentBullet := 0, cd := atk2.cd.reset }
        else atk2
      some ({ attacks := a.attacks.set i0 atk3, currentAttack := cur1, switchTimer := st1 }, 0)
    else
      let atk3 := { atk2 with icd := atk2.icd.map (fun t => GTimer.tick t dt) }
      let st2 := st1.tick dt
      let switched :=
        if st2.finished then ((if cur1 < n - 1 then cur1 + 1 else 0), st2.reset)
        else (cur1, st2)
      let cur2 := switched.1
      let st3 := switched.2
      let fireTimer := atk3.icd.getD atk3.cd
      if fireTimer.finished then
        match atk3.icd with
        | some icd =>
          let atk4 :=
            if icd.finished then
              { atk3 with currentBullet := atk3.currentBullet + 1, icd := some icd.reset }
            else atk3
          some ({ attacks := a.attacks.set i0 atk4, currentAttack := cur2, switchTimer := st3 }, 1)
        | Option.none =>
          let atk4 := { atk3 with cd := atk3.cd.reset }
          some ({ attacks := a.attacks.set i0 atk4, currentAttack := cur2, switchTimer := st3 },
                atk3.number)
      else
        some ({ attacks := a.attacks.set i0 atk3, currentAttack := cur2, switchTimer := st3 }, 0)

/-- An `Attacks` collection holding a single pattern (the setting of claim
C7: one pattern updated tick after tick). -/
def soloAttacks (p : AttackPattern) (st : GTimer) : Attacks :=
  { attacks := [p], currentAttack := 0, switchTimer := st }

/-- Run `enemy_attack` once per tick over a list of tick deltas, collecting
the per-tick spawn counts. -/
def attacksRun (a : Attacks) : List ℕ → Option (Attacks × List ℕ)
  | [] => some (a, [])
  | dt :: rest =>
    match enemyAttackStep false dt a with
    | Option.none => Option.none
    | some (a', c) =>
      match attacksRun a' rest with
      | Option.none => Option.none
      | some (a'', cs) => some (a'', c :: cs)

/-- Reference recurrence for the spawn counts of a single pattern without an
inner cooldown: `D` is the outer-cooldown duration, `num` the group size,
`e` the cooldown's elapsed time; a tick fires (spawning the whole group)
exactly when the ticked cooldown has completed, and firing resets it. -/
def soloCounts (D num : ℕ) : ℕ → List ℕ → List ℕ
  | _, [] => []
  | e, dt :: rest =>
    if D ≤ e + dt then num :: soloCounts D num 0 rest
    else 0 :: soloCounts D num (min (e + dt) D) rest

/-- Sum of the entries of `l` with indices in `[a, b)`. -/
def sumSlice (l : List ℕ) (a b : ℕ) : ℕ :=
  ((l.drop a).take (b - a)).sum

lemma Bullet.setDamage_le (b : Bullet) (d : ℚ) :
    (b.setDamage d).damage ≤ (b.setDamage d).maxDamage := by
  unfold Bullet.setDamage
  split
  · simp
  · next h => simpa using le_of_not_lt h

lemma Bullet.setMax_le (b : Bullet) (m : ℚ) :
    (b.setMax m).damage ≤ (b.setMax m).maxDamage := by
  unfold Bullet.setMax
  split
  · simp
  · next h => simpa using le_of_not_lt h

lemma Bullet.applyOp_le (b : Bullet) (op : BulletOp) :
    (b.applyOp op).damage ≤ (b.applyOp op).maxDamage := by
  cases op with
  | opSetDamage d => exact b.setDamage_le d
  | opSetMax m => exact b.setMax_le m
  | opSet d m => exact (b.setMax m).setDamage_le d

lemma Bullet.new_le (d m : ℚ) : (Bullet.new d m).damage ≤ (Bullet.new d m).maxDamage := by
  unfold Bullet.new
  split
  · simp
  · next h => simpa using le_of_not_lt h

lemma Bullet.applyOps_le (ops : List BulletOp) (b : Bullet)
    (h : b.damage ≤ b.maxDamage) :
    (b.applyOps ops).damage ≤ (b.applyOps ops).maxDamage := by
  induction ops generalizing b with
  | nil => exact h
  | cons op rest ih => exact ih (b.applyOp op) (b.applyOp_le op)

/-- C4: for every `Bullet` produced by the constructor and mutated by any
finite sequence of `set_damage`, `set_max` and `set` calls with arbitrary
arguments, `damage ≤ max_damage` holds after every call — out-of-range
arguments are clamped to the valid bound, never failing. -/
theorem c4_bullet_damage_invariant (d m : ℚ) (ops : List BulletOp) :
    ((Bullet.new d m).applyOps ops).damage ≤ ((Bullet.new d m).applyOps ops).maxDamage :=
  Bullet.applyOps_le ops (Bullet.new d m) (Bullet.new_le d m)

/-- C3: a damage-event target survives — its health is decremented by the
amount and nothing else happens (no despawns, no game-over, no kill-count
change) — if and only if its current health strictly exceeds the amount; an
amount equal to current health takes the lethal branch. -/
theorem c3_lethal_boundary_iff (ev : TakeDamageEvent) (hp : Health)
    (hb : Option ℕ) (k : EnemiesKilled) :
    takeDamage ev hp hb k =
      { health := { total := hp.total, current := hp.current - ev.damage }
        despawns := []
        gameOver := false
        kills := k } ↔ hp.current > ev.damage := by
  unfold takeDamage
  by_cases h : hp.current > ev.damage
  · simp [h]
  · rw [if_neg h]
    constructor
    · intro hEq
      have hd := congrArg DamageOutcome.despawns hEq
      cases hb <;> simp at hd
    · intro hgt
      exact absurd hgt h

/-- C8: `check_won` returns true if and only if no boss entity exists and the
kill counter's current-level tally is at least 15; a live boss or a tally
below 15 prevents level advancement. -/
theorem c8_check_won_iff (bossCount : ℕ) (k : EnemiesKilled) :
    checkWon bossCount [k] = true ↔ bossCount = 0 ∧ 15 ≤ k.currentLevel := by
  unfold checkWon
  by_cases hb : bossCount = 0 <;> simp [hb]

/-- C5 (amended): `Score.add` maintains the pre-multiplier accumulator and
recomputes the displayed score as `⌊pre_multiplier_total * multiplier⌋`;
hence `add x` then `add y` equals `add (x+y)` whenever the multiplier is
unchanged between the calls (a multiplier change can break the equality,
though the totals may still coincide); concretely with multiplier 1.5,
`add 10` gives score 15; after `increase_multiplier_by 0.01` the multiplier
is 1.51 and a further `add 10` gives pre-multiplier total 20 and score
`⌊20 * 1.51⌋ = 30`. -/
theorem c5_score_add_semantics :
    (∀ (s : Score) (x y : ℕ), (s.add x).add y = s.add (x + y)) ∧
    (Score.default.add 10).score = 15 ∧
    ((Score.default.add 10).increaseMultiplierBy (1 / 100)).multiplier = 151 / 100 ∧
    (((Score.default.add 10).increaseMultiplierBy (1 / 100)).add 10).preMultiplierScore = 20 ∧
    (((Score.default.add 10).increaseMultiplierBy (1 / 100)).add 10).score = 30 := by
  refine ⟨?_, ?_, ?_, ?_, ?_⟩
  · intro s x y
    simp [Score.add, Nat.add_assoc]
  · show (Int.floor (((0 + 10 : ℕ) : ℚ) * (3 / 2))).toNat = 15
    have h : (((0 + 10 : ℕ) : ℚ) * (3 / 2)) = 15 := by norm_num
    rw [h]
    have h2 : Int.floor ((15 : ℚ)) = 15 := by norm_num
    rw [h2]
    rfl
  · show ((3 : ℚ) / 2 + 1 / 100) = 151 / 100
    norm_num
  · rfl
  · show (Int.floor (((0 + 10 + 10 : ℕ) : ℚ) * ((3 / 2) + 1 / 100))).toNat = 30
    have h : (((0 + 10 + 10 : ℕ) : ℚ) * ((3 / 2) + 1 / 100)) = 151 / 5 := by norm_num
    rw [h]
    have h2 : Int.floor ((151 : ℚ) / 5) = 30 := by
      rw [Int.floor_eq_iff]
      norm_num
    rw [h2]
    rfl

/-- C5 counterexample to the claim as stated: the claim's "equals `add (x+y)`
exactly when the multiplier is unchanged" fails in the only-if direction —
after the claim's own multiplier change (1.5 to 1.51, a genuine change) the
displayed total of `add 10; increase; add 10` still equals that of `add 20`
with the multiplier untouched (both 30). -/
theorem c5_multiplier_change_counterexample :
    (((Score.default.add 10).increaseMultiplierBy (1 / 100)).add 10).score =
      (Score.default.add 20).score ∧
    ((Score.default.add 10).increaseMultiplierBy (1 / 100)).multiplier ≠
      (Score.default.add 10).multiplier := by
  constructor
  · show (Int.floor (((0 + 10 + 10 : ℕ) : ℚ) * ((3 / 2) + 1 / 100))).toNat =
      (Int.floor (((0 + 20 : ℕ) : ℚ) * (3 / 2))).toNat
    have h1 : (((0 + 10 + 10 : ℕ) : ℚ) * ((3 / 2) + 1 / 100)) = 151 / 5 := by norm_num
    have h2 : (((0 + 20 : ℕ) : ℚ) * (3 / 2)) = 30 := by norm_num
    rw [h1, h2]
    have h3 : Int.floor ((151 : ℚ) / 5) = 30 := by
      rw [Int.floor_eq_iff]
      norm_num
    rw [h3]
    norm_num
  · show ((3 : ℚ) / 2 + 1 / 100) ≠ 3 / 2
    norm_num

/-- C1 counterexample to the claim as stated: at a concrete lethal damage
event (amount 10 against current health 10, target entity 0 linked to UI
entity 7) the handler despawns the linked UI entity with `recursive = true`
(cascading) and the target with `recursive = false` (non-cascading) — the
opposite cascade flags of the claim. -/
theorem c1_despawn_flags_counterexample :
    (takeDamage { entity := 0, entityType := some ColliderType.Enemy, damage := 10 }
        { total := 20, current := 10 } (some 7) { total := 0, currentLevel := 0 }).despawns =
      [{ entity := 7, recursive := true, dropScore := 0, dropPower := 0 },
       { entity := 0, recursive := false, dropScore := 5, dropPower := 3 }] ∧
    (takeDamage { entity := 0, entityType := some ColliderType.Enemy, damage := 10 }
        { total := 20, current := 10 } (some 7) { total := 0, currentLevel := 0 }).despawns ≠
      [{ entity := 7, recursive := false, dropScore := 0, dropPower := 0 },
       { entity := 0, recursive := true, dropScore := 5, dropPower := 3 }] := by
  constructor
  · decide
  · decide

/-- C1 (amended): for every damage event whose amount is at least the
target's current health (the lethal case), the handler despawns the target's
linked dependent UI entity recursively (cascading), raises a game-over
signal exactly when the target category is Player, increments the kill
counter exactly when it is Enemy, despawns the target itself non-recursively
(non-cascading), and requests loot of exactly 5 score pickups and 3 power
pickups via the target's despawn event (spawned at its last known
position). -/
theorem c1_lethal_damage_outcome (ev : TakeDamageEvent) (hp : Health)
    (bar : ℕ) (k : EnemiesKilled) (h : hp.current ≤ ev.damage) :
    (takeDamage ev hp (some bar) k).despawns =
      [DespawnEvent.new bar true,
       ((DespawnEvent.new ev.entity false).withScore 5).withPower 3] ∧
    despawnEntity [bar, ev.entity] (DespawnEvent.new bar true) =
      some (DespawnAction.recursiveDespawn bar) ∧
    despawnEntity [bar, ev.entity]
        (((DespawnEvent.new ev.entity false).withScore 5).withPower 3) =
      some (DespawnAction.plainDespawn ev.entity) ∧
    ((takeDamage ev hp (some bar) k).gameOver = true ↔
      ev.entityType = some ColliderType.Player) ∧
    (takeDamage ev hp (some bar) k).kills =
      (if ev.entityType = some ColliderType.Enemy then k.increment else k) ∧
    (takeDamage ev hp (some bar) k).health = hp := by
  have hnot : ¬hp.current > ev.damage := not_lt.mpr h
  unfold takeDamage
  rw [if_neg hnot]
  refine ⟨rfl, ?_, ?_, ?_, rfl, rfl⟩
  · simp [despawnEntity, DespawnEvent.new]
  · simp [despawnEntity, DespawnEvent.new, DespawnEvent.withScore, DespawnEvent.withPower]
  · by_cases hP : ev.entityType = some ColliderType.Player <;> simp [hP]

/-- C1 witness: the amended lethal-case theorem applied at the concrete
input of the counterexample (damage 10, health 10, UI entity 7). -/
theorem c1_lethal_damage_outcome_witness :
    ((10 : ℚ) ≤ 10) ∧
    (takeDamage { entity := 0, entityType := some ColliderType.Enemy, damage := 10 }
        { total := 20, current := 10 } (some 7) { total := 0, currentLevel := 0 }).despawns =
      [DespawnEvent.new 7 true,
       ((DespawnEvent.new 0 false).withScore 5).withPower 3] :=
  ⟨by decide,
   (c1_lethal_damage_outcome
      { entity := 0, entityType := some ColliderType.Enemy, damage := 10 }
      { total := 20, current := 10 } 7 { total := 0, currentLevel := 0 } (by decide)).1⟩

/-- C2: every damage event emitted by the bullet collision handler carries
`low + (current_power / max_power) * (high - low)` when the bullet is a
player-fired bullet and the collision record is a begin-event (`low` the
bullet's current damage, `high` its max damage, power read from the single
player entity), and the bullet's current damage in every other case. -/
theorem c2_bullet_damage_scaling (entity : ℕ) (bulletType : ColliderType)
    (b : Bullet) (power : Power) (c : CollisionData) (ev : TakeDamageEvent)
    (hev : ev ∈ (handleBulletColOne entity bulletType b (some power) c).damageEvents) :
    ev.damage = specBulletDamage bulletType c.started b power := by
  unfold handleBulletColOne at hev
  unfold specBulletDamage
  by_cases hc : bulletType = ColliderType.PlayerBullet ∧ c.started = true
  · rw [if_pos hc] at hev
    rw [if_pos hc]
    have hform : b.damage + (power.current : ℚ) * (b.maxDamage - b.damage) / (power.max : ℚ) =
        b.damage + ((power.current : ℚ) / (power.max : ℚ)) * (b.maxDamage - b.damage) := by
      ring
    unfold bulletColEmit at hev
    cases hco : c.otherType <;> rw [hco] at hev <;> simp_all
  · rw [if_neg hc] at hev
    rw [if_neg hc]
    unfold bulletColEmit at hev
    by_cases hst : c.started = true <;>
      cases hco : c.otherType <;> rw [hco] at hev <;> simp_all

/-- C2 witness: a player bullet with damage 5 and max 20 hitting an enemy on
a begin-event while player power is 250 of 500 emits a damage event carrying
exactly 12.5 = 25/2. -/
theorem c2_bullet_damage_scaling_witness :
    ({ entity := 9, entityType := some ColliderType.Enemy, damage := 25 / 2 } :
        TakeDamageEvent) ∈
      (handleBulletColOne 3 ColliderType.PlayerBullet { damage := 5, maxDamage := 20 }
        (some { current := 250, max := 500 })
        { otherType := ColliderType.Enemy, otherEntity := 9, flags := 0,
          started := true }).damageEvents ∧
    (25 : ℚ) / 2 =
      specBulletDamage ColliderType.PlayerBullet true { damage := 5, maxDamage := 20 }
        { current := 250, max := 500 } := by
  have hmem : ({ entity := 9, entityType := some ColliderType.Enemy, damage := 25 / 2 } :
      TakeDamageEvent) ∈
      (handleBulletColOne 3 ColliderType.PlayerBullet { damage := 5, maxDamage := 20 }
        (some { current := 250, max := 500 })
        { otherType := ColliderType.Enemy, otherEntity := 9, flags := 0,
          started := true }).damageEvents := by
    unfold handleBulletColOne bulletColEmit
    have hval : (5 : ℚ) + (250 : ℚ) * ((20 : ℚ) - 5) / (500 : ℚ) = 25 / 2 := by norm_num
    simp only [if_pos (And.intro rfl rfl)]
    simp [hval]
  exact ⟨hmem,
    c2_bullet_damage_scaling 3 ColliderType.PlayerBullet
      { damage := 5, maxDamage := 20 } { current := 250, max := 500 }
      { otherType := ColliderType.Enemy, otherEntity := 9, flags := 0, started := true }
      { entity := 9, entityType := some ColliderType.Enemy, damage := 25 / 2 } hmem⟩

lemma tableGetD_push_self (t : CollisionTable) (e : ℕ) (d : CollisionData) :
    tableGetD (tablePush e d t) e = tableGetD t e ++ [d] := by
  induction t with
  | nil => simp [tablePush, tableGetD]
  | cons kv rest ih =>
    obtain ⟨k, v⟩ := kv
    by_cases hk : k = e
    · subst hk
      simp [tablePush, tableGetD]
    · simp [tablePush, tableGetD, hk, ih]

lemma tableGetD_push_other (t : CollisionTable) (e x : ℕ) (d : CollisionData)
    (hx : x ≠ e) : tableGetD (tablePush e d t) x = tableGetD t x := by
  induction t with
  | nil => simp [tablePush, tableGetD, Ne.symm hx]
  | cons kv rest ih =>
    obtain ⟨k, v⟩ := kv
    by_cases hk : k = e
    · subst hk
      simp [tablePush, tableGetD, Ne.symm hx]
    · by_cases hkx : k = x <;> simp [tablePush, tableGetD, hk, hkx, hx, ih]

lemma key_mem_tablePush (t : CollisionTable) (e : ℕ) (d : CollisionData)
    (kv : ℕ × List CollisionData) (h : kv ∈ tablePush e d t) :
    kv.1 = e ∨ kv.1 ∈ t.map Prod.fst := by
  induction t with
  | nil =>
    simp only [tablePush] at h
    left
    rw [List.mem_singleton.mp h]
  | cons kv0 rest ih =>
    obtain ⟨k, v⟩ := kv0
    simp only [tablePush] at h
    by_cases hk : k = e
    · rw [if_pos hk] at h
      rcases List.mem_cons.mp h with h | h
      · left
        rw [h]
        exact hk
      · right
        rw [List.map_cons]
        exact List.mem_cons_of_mem _ (List.mem_map_of_mem Prod.fst h)
    · rw [if_neg hk] at h
      rcases List.mem_cons.mp h with h | h
      · right
        rw [h, List.map_cons]
        exact List.mem_cons_self _ _
      · rcases ih h with h' | h'
        · exact Or.inl h'
        · right
          rw [List.map_cons]
          exact List.mem_cons_of_mem _ h'

lemma mem_markEntity (ms : List ℕ) (e x : ℕ) (h : x ∈ ms) :
    x ∈ markEntity ms e := by
  unfold markEntity
  split <;> simp [h]

lemma self_mem_markEntity (ms : List ℕ) (e : ℕ) : e ∈ markEntity ms e := by
  unfold markEntity
  split
  · assumption
  · simp

lemma handleCollisionEvent_keys (types : List (ℕ × ColliderType))
    (w : CollisionWorld) (ev : RawCollisionEvent)
    (hw : ∀ kv ∈ w.table, kv.1 ∈ w.markers) :
    ∀ kv ∈ (handleCollisionEvent types w ev).table,
      kv.1 ∈ (handleCollisionEvent types w ev).markers := by
  unfold handleCollisionEvent
  cases h1 : types.lookup ev.entity1 with
  | none => simpa using hw
  | some t1 =>
    cases h2 : types.lookup ev.entity2 with
    | none => simpa using hw
    | some t2 =>
      intro kv hkv
      simp only at hkv ⊢
      rcases key_mem_tablePush _ _ _ _ hkv with h | h
      · rw [h]
        exact self_mem_markEntity _ _
      · have h' : kv.1 = ev.entity1 ∨ kv.1 ∈ w.table.map Prod.fst := by
          rcases List.mem_map.mp h with ⟨kv', hkv', hfst⟩
          rcases key_mem_tablePush _ _ _ _ hkv' with h'' | h''
          · left
            rw [← hfst]
            exact h''
          · right
            rw [← hfst]
            exact h''
        rcases h' with h'' | h''
        · rw [h'']
          exact mem_markEntity _ _ _ (self_mem_markEntity _ _)
        · rcases List.mem_map.mp h'' with ⟨kv', hkv', hfst⟩
          rw [← hfst]
          exact mem_markEntity _ _ _ (mem_markEntity _ _ _ (hw kv' hkv'))

lemma handleCollisions_keys (types : List (ℕ × ColliderType))
    (evs : List RawCollisionEvent) (w : CollisionWorld)
    (hw : ∀ kv ∈ w.table, kv.1 ∈ w.markers) :
    ∀ kv ∈ (handleCollisions types w evs).table,
      kv.1 ∈ (handleCollisions types w evs).markers := by
  induction evs generalizing w with
  | nil => exact hw
  | cons ev rest ih =>
    exact ih (handleCollisionEvent types w ev)
      (handleCollisionEvent_keys types w ev hw)

lemma foldl_removeKey {β : Type} (key : β → ℕ) (ms : List ℕ) (l : List β) :
    ms.foldl (fun s e => s.filter (fun x => decide (key x ≠ e))) l =
      l.filter (fun x => decide (key x ∉ ms)) := by
  induction ms generalizing l with
  | nil =>
    simp only [List.foldl_nil]
    symm
    apply List.filter_eq_self.mpr
    intro a _
    simp
  | cons m rest ih =>
    simp only [List.foldl_cons]
    rw [ih]
    rw [List.filter_filter]
    apply List.filter_congr
    intro a _
    by_cases h1 : key a = m <;> by_cases h2 : key a ∈ rest <;>
      simp [h1, h2, List.mem_cons]

/-- C9: after the per-tick cleanup runs (following all collision handlers),
the collision table is empty and no entity retains the involved-this-tick
marker: every entity marked during ingestion has its marker removed and its
table entry erased, so no collision record set spans more than one tick. -/
theorem c9_cleanup_clears_state (types : List (ℕ × ColliderType))
    (evs : List RawCollisionEvent) :
    cleanupCollisions (handleCollisions types { table := [], markers := [] } evs) =
      { table := [], markers := [] } := by
  have hkeys := handleCollisions_keys types evs { table := [], markers := [] }
    (by intro kv hkv; simp at hkv)
  set w := handleCollisions types { table := [], markers := [] } evs with hw
  unfold cleanupCollisions
  have htab : w.markers.foldl tableRemove w.table = [] := by
    have heta : w.markers.foldl tableRemove w.table =
        w.markers.foldl
          (fun s e => s.filter (fun x : ℕ × List CollisionData => decide (x.1 ≠ e)))
          w.table := rfl
    rw [heta, foldl_removeKey (fun x : ℕ × List CollisionData => x.1)]
    apply List.filter_eq_nil_iff.mpr
    intro kv hkv
    simp [hkeys kv hkv]
  have hmark : w.markers.foldl (fun ms e => ms.filter (fun x => decide (x ≠ e)))
      w.markers = [] := by
    rw [foldl_removeKey (fun x : ℕ => x)]
    apply List.filter_eq_nil_iff.mpr
    intro x hx
    simp [hx]
  rw [htab, hmark]

/-- C10: a raw overlap event produces records only when both entities carry a
`ColliderType`: then each of the two (distinct) entities gets exactly one
record of the other (category, handle, flags, begin bit) appended to its
table entry, no other entity's entry changes, and both entities are marked;
if either entity lacks a category the event changes nothing — no record and
no marker for either entity, including the one that does carry a tag. -/
theorem c10_ingest_records (types : List (ℕ × ColliderType)) (w : CollisionWorld)
    (ev : RawCollisionEvent) (hne : ev.entity1 ≠ ev.entity2) :
    (∀ t1 t2, types.lookup ev.entity1 = some t1 → types.lookup ev.entity2 = some t2 →
      tableGetD (handleCollisionEvent types w ev).table ev.entity1 =
        tableGetD w.table ev.entity1 ++
          [{ otherType := t2, otherEntity := ev.entity2, flags := ev.flags,
             started := ev.started }] ∧
      tableGetD (handleCollisionEvent types w ev).table ev.entity2 =
        tableGetD w.table ev.entity2 ++
          [{ otherType := t1, otherEntity := ev.entity1, flags := ev.flags,
             started := ev.started }] ∧
      (∀ x, x ≠ ev.entity1 → x ≠ ev.entity2 →
        tableGetD (handleCollisionEvent types w ev).table x = tableGetD w.table x) ∧
      ev.entity1 ∈ (handleCollisionEvent types w ev).markers ∧
      ev.entity2 ∈ (handleCollisionEvent types w ev).markers) ∧
    (types.lookup ev.entity1 = Option.none ∨ types.lookup ev.entity2 = Option.none →
      handleCollisionEvent types w ev = w) := by
  constructor
  · intro t1 t2 h1 h2
    unfold handleCollisionEvent
    rw [h1, h2]
    refine ⟨?_, ?_, ?_, ?_, ?_⟩
    · simp only
      rw [tableGetD_push_other _ _ _ _ hne, tableGetD_push_self]
    · simp only
      rw [tableGetD_push_self, tableGetD_push_other _ _ _ _ (Ne.symm hne)]
    · intro x hx1 hx2
      simp only
      rw [tableGetD_push_other _ _ _ _ hx2, tableGetD_push_other _ _ _ _ hx1]
    · simp only
      exact mem_markEntity _ _ _ (self_mem_markEntity _ _)
    · simp only
      exact self_mem_markEntity _ _
  · intro h
    unfold handleCollisionEvent
    cases h1 : types.lookup ev.entity1 with
    | none => rfl
    | some t1 =>
      cases h2 : types.lookup ev.entity2 with
      | none => rfl
      | some t2 =>
        exfalso
        rcases h with h | h
        · rw [h1] at h
          exact Option.noConfusion h
        · rw [h2] at h
          exact Option.noConfusion h

/-- C10 witness: the per-entity record appends at a concrete event between
entities 1 and 2 both carrying a category. -/
theorem c10_ingest_records_witness :
    tableGetD (handleCollisionEvent [(1, ColliderType.PlayerBullet), (2, ColliderType.Enemy)]
        { table := [], markers := [] }
        { entity1 := 1, entity2 := 2, flags := 0, started := true }).table 1 =
      [{ otherType := ColliderType.Enemy, otherEntity := 2, flags := 0, started := true }] :=
  ((c10_ingest_records [(1, ColliderType.PlayerBullet), (2, ColliderType.Enemy)]
      { table := [], markers := [] }
      { entity1 := 1, entity2 := 2, flags := 0, started := true } (by decide)).1
    ColliderType.PlayerBullet ColliderType.Enemy (by decide) (by decide)).1

lemma GTimer.tick_finished_iff (t : GTimer) (dt : ℕ) :
    (t.tick dt).finished = true ↔ t.duration ≤ t.elapsed + dt := by
  simp [GTimer.tick, GTimer.finished, le_min_iff]

/-- C6 counterexample to the claim as stated: with a single pattern whose
bullet cursor (3) has reached its group count (3) — i.e. it is only waiting
on its outer cooldown — a 5 ns update leaves the shared switch timer's
elapsed time at 0: the early `continue` in `enemy_attack` skips
`switch_timer.tick`, so the timer does not advance "regardless of the state
of the current pattern". -/
theorem c6_switch_timer_counterexample :
    (enemyAttackStep false 5
        { attacks := [{ number := 3, cd := { duration := 1000, elapsed := 0 },
                        icd := some { duration := 100, elapsed := 100 }, currentBullet := 3 }],
          currentAttack := 0,
          switchTimer := { duration := 10000, elapsed := 0 } }).map
        (fun p => p.1.switchTimer) =
      some ({ duration := 10000, elapsed := 0 } : GTimer) ∧
    (({ duration := 10000, elapsed := 0 } : GTimer).tick 5).elapsed ≠ 0 := by
  constructor
  · decide
  · decide

/-- C6 (amended): on a per-tick update of an `Attacks` collection, the shared
pattern-switch timer advances by the elapsed time only when the current
pattern's bullet cursor is below its group count — when the cursor has
reached the group count (waiting on the outer cooldown) the update returns
early and the switch timer and pattern index are left untouched; whenever
the ticked timer completes, the current index advances circularly through
the pattern list and the timer resets. -/
theorem c6_switch_timer_gating (dt : ℕ) (a : Attacks) (atk : AttackPattern)
    (h : a.attacks.get? a.currentAttack = some atk) :
    (atk.number ≤ atk.currentBullet →
      (enemyAttackStep false dt a).map
          (fun p => (p.1.switchTimer, p.1.currentAttack)) =
        some (a.switchTimer, a.currentAttack)) ∧
    (atk.currentBullet < atk.number →
      (enemyAttackStep false dt a).map
          (fun p => (p.1.switchTimer, p.1.currentAttack)) =
        some
          ((if (a.switchTimer.tick dt).finished then (a.switchTimer.tick dt).reset
            else a.switchTimer.tick dt),
           (if (a.switchTimer.tick dt).finished then
              (if a.currentAttack < a.attacks.length - 1 then a.currentAttack + 1 else 0)
            else a.currentAttack))) := by
  constructor
  · intro hle
    unfold enemyAttackStep
    rw [h]
    simp only [Bool.false_eq_true, if_false]
    rw [if_pos hle]
    simp
  · intro hlt
    unfold enemyAttackStep
    rw [h]
    simp only [Bool.false_eq_true, if_false]
    rw [if_neg (by simpa using Nat.not_le.mpr hlt)]
    split
    · split
      all_goals by_cases hsw : (a.switchTimer.tick dt).finished = true <;> simp [hsw]
    · by_cases hsw : (a.switchTimer.tick dt).finished = true <;> simp [hsw]

/-- C6 witness: the amended switch-timer theorem at a concrete single-pattern
collection whose cursor is below the group count: a 5 ns tick completes the
switch timer (duration 7, elapsed 4), which resets, and the index wraps back
to 0. -/
theorem c6_switch_timer_gating_witness :
    (({ attacks := [{ number := 3, cd := { duration := 1000, elapsed := 0 },
                      icd := Option.none, currentBullet := 0 }],
        currentAttack := 0,
        switchTimer := { duration := 7, elapsed := 4 } } : Attacks).attacks.get? 0 =
      some { number := 3, cd := { duration := 1000, elapsed := 0 },
             icd := Option.none, currentBullet := 0 }) ∧
    ((3 ≤ 0 →
      (enemyAttackStep false 5
          { attacks := [{ number := 3, cd := { duration := 1000, elapsed := 0 },
                          icd := Option.none, currentBullet := 0 }],
            currentAttack := 0,
            switchTimer := { duration := 7, elapsed := 4 } }).map
          (fun p => (p.1.switchTimer, p.1.currentAttack)) =
        some ({ duration := 7, elapsed := 4 }, 0)) ∧
     (0 < 3 →
      (enemyAttackStep false 5
          { attacks := [{ number := 3, cd := { duration := 1000, elapsed := 0 },
                          icd := Option.none, currentBullet := 0 }],
            currentAttack := 0,
            switchTimer := { duration := 7, elapsed := 4 } }).map
          (fun p => (p.1.switchTimer, p.1.currentAttack)) =
        some
          ((if (({ duration := 7, elapsed := 4 } : GTimer).tick 5).finished then
              (({ duration := 7, elapsed := 4 } : GTimer).tick 5).reset
            else ({ duration := 7, elapsed := 4 } : GTimer).tick 5),
           (if (({ duration := 7, elapsed := 4 } : GTimer).tick 5).finished then
              (if 0 < ([{ number := 3, cd := { duration := 1000, elapsed := 0 },
                          icd := Option.none,
                          currentBullet := 0 }] : List AttackPattern).length - 1 then
                0 + 1
               else 0)
            else 0)))) :=
  ⟨rfl,
   c6_switch_timer_gating 5
     { attacks := [{ number := 3, cd := { duration := 1000, elapsed := 0 },
                     icd := Option.none, currentBullet := 0 }],
       currentAttack := 0,
       switchTimer := { duration := 7, elapsed := 4 } }
     { number := 3, cd := { duration := 1000, elapsed := 0 },
       icd := Option.none, currentBullet := 0 } rfl⟩

lemma enemyAttackStep_solo (p : AttackPattern) (st : GTimer) (dt : ℕ)
    (hicd : p.icd = Option.none) (hcur : p.currentBullet < p.number) :
    enemyAttackStep false dt (soloAttacks p st) =
      some
        (soloAttacks
          { p with cd := if (p.cd.tick dt).finished then (p.cd.tick dt).reset
                         else p.cd.tick dt }
          (if (st.tick dt).finished then (st.tick dt).reset else st.tick dt),
         if (p.cd.tick dt).finished then p.number else 0) := by
  have hne : ¬ p.number ≤ p.currentBullet := Nat.not_le.mpr hcur
  by_cases hfin : (p.cd.tick dt).finished = true <;>
    by_cases hsw : (st.tick dt).finished = true <;>
      simp [enemyAttackStep, soloAttacks, hicd, hne, hfin, hsw]

lemma attacksRun_solo (dts : List ℕ) (p : AttackPattern) (st : GTimer)
    (hicd : p.icd = Option.none) (hcur : p.currentBullet < p.number) :
    ∃ p' st', attacksRun (soloAttacks p st) dts =
        some (soloAttacks p' st', soloCounts p.cd.duration p.number p.cd.elapsed dts) ∧
      p'.icd = Option.none ∧ p'.currentBullet = p.currentBullet ∧
      p'.number = p.number ∧ p'.cd.duration = p.cd.duration := by
  induction dts generalizing p st with
  | nil => exact ⟨p, st, rfl, hicd, rfl, rfl, rfl⟩
  | cons dt rest ih =>
    have hstep := enemyAttackStep_solo p st dt hicd hcur
    by_cases hfin : (p.cd.tick dt).finished = true
    · have hd : p.cd.duration ≤ p.cd.elapsed + dt := (GTimer.tick_finished_iff p.cd dt).mp hfin
      simp only [hfin, if_true] at hstep
      obtain ⟨p', st', hrun, h1, h2, h3, h4⟩ :=
        ih { p with cd := (p.cd.tick dt).reset }
           (if (st.tick dt).finished = true then (st.tick dt).reset else st.tick dt)
           hicd hcur
      refine ⟨p', st', ?_, h1, h2, h3, h4⟩
      rw [attacksRun, hstep]
      simp only
      rw [hrun]
      have hsc : soloCounts p.cd.duration p.number p.cd.elapsed (dt :: rest) =
          p.number :: soloCounts p.cd.duration p.number 0 rest := by
        rw [soloCounts, if_pos hd]
      rw [hsc]
      rfl
    · have hd : ¬ p.cd.duration ≤ p.cd.elapsed + dt := by
        intro hc
        exact hfin ((GTimer.tick_finished_iff p.cd dt).mpr hc)
      rw [if_neg hfin, if_neg hfin] at hstep
      obtain ⟨p', st', hrun, h1, h2, h3, h4⟩ :=
        ih { p with cd := p.cd.tick dt }
           (if (st.tick dt).finished = true then (st.tick dt).reset else st.tick dt)
           hicd hcur
      refine ⟨p', st', ?_, h1, h2, h3, h4⟩
      rw [attacksRun, hstep]
      simp only
      rw [hrun]
      have hsc : soloCounts p.cd.duration p.number p.cd.elapsed (dt :: rest) =
          0 :: soloCounts p.cd.duration p.number (min (p.cd.elapsed + dt) p.cd.duration) rest := by
        rw [soloCounts, if_neg hd]
      rw [hsc]
      rfl

lemma soloCounts_mem (D num : ℕ) (dts : List ℕ) :
    ∀ e c, c ∈ soloCounts D num e dts → c = 0 ∨ c = num := by
  induction dts with
  | nil =>
    intro e c h
    simp [soloCounts] at h
  | cons dt rest ih =>
    intro e c h
    rw [soloCounts] at h
    split at h <;> rcases List.mem_cons.mp h with h' | h'
    · exact Or.inr h'
    · exact ih _ _ h'
    · exact Or.inl h'
    · exact ih _ _ h'

lemma soloCounts_fire_bound (D num : ℕ) (dts : List ℕ) :
    ∀ (e j : ℕ), (soloCounts D num e dts).getD j 0 ≠ 0 →
      D ≤ e + sumSlice dts 0 (j + 1) := by
  induction dts with
  | nil =>
    intro e j h
    simp [soloCounts] at h
  | cons dt rest ih =>
    intro e j h
    rw [soloCounts] at h
    by_cases hD : D ≤ e + dt
    · rw [if_pos hD] at h
      cases j with
      | zero =>
        have hs : sumSlice (dt :: rest) 0 1 = dt := by
          simp [sumSlice]
        rw [hs]
        exact hD
      | succ j =>
        simp only [List.getD_cons_succ] at h
        have hb := ih 0 j h
        have hs : sumSlice (dt :: rest) 0 (j + 2) = dt + sumSlice rest 0 (j + 1) := by
          simp [sumSlice, List.take_succ_cons]
        rw [hs]
        omega
    · rw [if_neg hD] at h
      cases j with
      | zero =>
        simp at h
      | succ j =>
        simp only [List.getD_cons_succ] at h
        have hb := ih (min (e + dt) D) j h
        have hs : sumSlice (dt :: rest) 0 (j + 2) = dt + sumSlice rest 0 (j + 1) := by
          simp [sumSlice, List.take_succ_cons]
        rw [hs]
        have hm : min (e + dt) D ≤ e + dt := Nat.min_le_left _ _
        omega

lemma soloCounts_gap (D num : ℕ) (dts : List ℕ) :
    ∀ (e i j : ℕ), i < j →
      (soloCounts D num e dts).getD i 0 ≠ 0 →
      (soloCounts D num e dts).getD j 0 ≠ 0 →
      D ≤ sumSlice dts (i + 1) (j + 1) := by
  induction dts with
  | nil =>
    intro e i j hij hi hj
    simp [soloCounts] at hi
  | cons dt rest ih =>
    intro e i j hij hi hj
    rw [soloCounts] at hi hj
    obtain ⟨j', rfl⟩ : ∃ j', j = j' + 1 := ⟨j - 1, by omega⟩
    by_cases hD : D ≤ e + dt
    · rw [if_pos hD] at hi hj
      cases i with
      | zero =>
        simp only [List.getD_cons_succ] at hj
        have hb := soloCounts_fire_bound D num rest 0 j' hj
        have hs : sumSlice (dt :: rest) 1 (j' + 2) = sumSlice rest 0 (j' + 1) := by
          simp [sumSlice]
        rw [hs]
        omega
      | succ i' =>
        simp only [List.getD_cons_succ] at hi hj
        have hb := ih 0 i' j' (by omega) hi hj
        have hs : sumSlice (dt :: rest) (i' + 2) (j' + 2) = sumSlice rest (i' + 1) (j' + 1) := by
          simp [sumSlice, List.drop_succ_cons]
        rw [hs]
        exact hb
    · rw [if_neg hD] at hi hj
      cases i with
      | zero =>
        simp at hi
      | succ i' =>
        simp only [List.getD_cons_succ] at hi hj
        have hb := ih (min (e + dt) D) i' j' (by omega) hi hj
        have hs : sumSlice (dt :: rest) (i' + 2) (j' + 2) = sumSlice rest (i' + 1) (j' + 1) := by
          simp [sumSlice, List.drop_succ_cons]
        rw [hs]
        exact hb

/-- C7: for a pattern with no inner cooldown (cursor below the group count,
as at construction), repeated per-tick updates spawn either nothing or the
entire group of `number` bullets atomically in a single update; any two
firing ticks are separated by at least the outer-cooldown duration (the
cooldown is reset on firing), and the bullet cursor is never advanced. -/
theorem c7_no_inner_cooldown_rate (p : AttackPattern) (st : GTimer) (dts : List ℕ)
    (hicd : p.icd = Option.none) (hcur : p.currentBullet < p.number) :
    ∃ a' counts, attacksRun (soloAttacks p st) dts = some (a', counts) ∧
      (∀ c ∈ counts, c = 0 ∨ c = p.number) ∧
      (∀ i j, i < j → counts.getD i 0 ≠ 0 → counts.getD j 0 ≠ 0 →
        p.cd.duration ≤ sumSlice dts (i + 1) (j + 1)) ∧
      (∀ q ∈ a'.attacks, q.currentBullet = p.currentBullet) := by
  obtain ⟨p', st', hrun, h1, h2, h3, h4⟩ := attacksRun_solo dts p st hicd hcur
  refine ⟨soloAttacks p' st',
    soloCounts p.cd.duration p.number p.cd.elapsed dts, hrun, ?_, ?_, ?_⟩
  · intro c hc
    exact soloCounts_mem _ _ _ _ _ hc
  · intro i j hij hi hj
    exact soloCounts_gap _ _ _ _ _ _ hij hi hj
  · intro q hq
    have hq' : q = p' := by simpa [soloAttacks] using hq
    rw [hq', h2]

/-- C7 witness: the rate-limit theorem at a concrete pattern (group of 2,
outer cooldown 10 ns, no inner cooldown) run over ticks of 10, 5 and 5 ns. -/
theorem c7_no_inner_cooldown_rate_witness :
    (({ number := 2, cd := { duration := 10, elapsed := 0 }, icd := Option.none,
        currentBullet := 0 } : AttackPattern).icd = Option.none) ∧
    (0 < 2) ∧
    (∃ a' counts,
      attacksRun
          (soloAttacks
            { number := 2, cd := { duration := 10, elapsed := 0 }, icd := Option.none,
              currentBullet := 0 }
            { duration := 10000, elapsed := 0 })
          [10, 5, 5] = some (a', counts) ∧
      (∀ c ∈ counts, c = 0 ∨ c = 2) ∧
      (∀ i j, i < j → counts.getD i 0 ≠ 0 → counts.getD j 0 ≠ 0 →
        10 ≤ sumSlice [10, 5, 5] (i + 1) (j + 1)) ∧
      (∀ q ∈ a'.attacks, q.currentBullet = 0)) :=
  ⟨rfl, by decide,
   c7_no_inner_cooldown_rate
     { number := 2, cd := { duration := 10, elapsed := 0 }, icd := Option.none,
       currentBullet := 0 }
     { duration := 10000, elapsed := 0 } [10, 5, 5] rfl (by decide)⟩

end Shmup
